import Mathlib

/-!
Verification development for the `ts-retry-helper` repository.

The repository has two TypeScript source files:

* `src/RetryHelpers.ts` — the retry engine (`RetryHelper` with its `run`
  method) and the `RetryOption` implementations `MaxAttemptsRetryAllowed`,
  `LinearBackoff`, `MaxTimeout`, `DelayJitter`, `RetriableExceptions`.
* `src/RetryHelper.ts` — the standalone backoff policies
  `LinearBackoffPolicy` and `ExponentialBackoffPolicy`, plus draft `retry`
  functions.

Shallow-embedding conventions:

* JavaScript `number` values used as delays are modelled as `ℚ`
  (`Math.random()` becomes an explicit rational parameter `rand` with
  `0 ≤ rand < 1`); timestamps (`Date.getTime()`, milliseconds since the
  epoch) are modelled as `Int`; attempt counters as `Nat`.
* Thrown stop exceptions (`MaxAttemptsException`, `MaxTimeoutException`,
  `NonretriableException`) become the `StopErr` inductive; a method that can
  throw returns `Except StopErr _`.
* The error value thrown by the wrapped operation is opaque; it is modelled
  as a `Nat` token.
* Object-private mutable fields (`this.attempts`, `this.numAttempts`,
  `this.currentDelay`) become explicit state passing: a method that mutates
  its object returns the updated structure.
* `setTimeout`/`EventEmitter` side effects (the timer armed by
  `MaxTimeout.checkRetryAllowed`, the timer armed by
  `LinearBackoff.retryDelayMs`, and the `TIMEOUT` listener registered by
  `run`) are asynchronous-callback machinery with no influence on the
  synchronous control flow of a single `run()` call; they are noted in doc
  comments where they occur and otherwise omitted.
-/

/-- The stop exceptions of `RetryHelpers.ts`: `MaxAttemptsException`
(code "429", message carries the attempt counter), `MaxTimeoutException`
(code "408", message carries the configured total), and
`NonretriableException` (code "500", carries the triggering error). -/
inductive StopErr where
  | maxAttemptsExceeded (attempts : Nat)
  | maxTimeoutExceeded (totalTimeoutMs : Int)
  | nonretriable (err : Nat)
  deriving DecidableEq, Repr

/-- Construction-time failure; realises the spec's `InvalidConfiguration`
taxonomy kind (the source realises it as `assert(...)` in the `DelayJitter`
constructor). -/
inductive ConfigError where
  | invalidConfiguration
  deriving DecidableEq, Repr

/-- Interface `RetryOption` of `RetryHelpers.ts`: two independently optional
capabilities, `checkRetryAllowed?(numAttempts, timestamp, err?)` (throws a
`StopErr` to veto) and `retryDelayMs?(previousDelayMs, timestamp)`.

`RetryHelper.run` performs exactly one round (it has no loop), so each
registered option's methods are called at most once per `run()`; the
per-round behaviour of a stateful option instance is therefore fully
captured by the value of its methods at the instance's current state, which
is what the two function fields hold. -/
structure RetryOption where
  checkRetryAllowed : Option (Nat → Int → Nat → Except StopErr Unit)
  retryDelayMs : Option (ℚ → Int → ℚ)

/-- The guarded call `if (opt.checkRetryAllowed) opt.checkRetryAllowed(numAttempts, currentTimestamp, err)`
in `RetryHelper.run`: absent capability is a no-op. -/
def RetryOption.applyCheck (o : RetryOption) (numAttempts : Nat) (timestamp : Int)
    (err : Nat) : Except StopErr Unit :=
  match o.checkRetryAllowed with
  | some c => c numAttempts timestamp err
  | none => .ok ()

/-- The guarded call `if (opt.retryDelayMs) delayMs = opt.retryDelayMs(delayMs, currentTimestamp)`
in `RetryHelper.run`: absent capability leaves `delayMs` unchanged. -/
def RetryOption.applyDelay (o : RetryOption) (delayMs : ℚ) (timestamp : Int) : ℚ :=
  match o.retryDelayMs with
  | some f => f delayMs timestamp
  | none => delayMs

/-- The `for (var opt of this.options)` loop in the `catch` block of
`RetryHelper.run` (src/RetryHelpers.ts lines 221-228): for each option in
registration order, call `checkRetryAllowed` (a throw propagates out of the
loop immediately), then fold `retryDelayMs` into `delayMs`. -/
def runRound (options : List RetryOption) (numAttempts : Nat) (timestamp : Int)
    (err : Nat) (delayMs : ℚ) : Except StopErr ℚ :=
  match options with
  | [] => .ok delayMs
  | o :: rest =>
    match o.applyCheck numAttempts timestamp err with
    | .error e => .error e
    | .ok _ => runRound rest numAttempts timestamp err (o.applyDelay delayMs timestamp)

/-- Class `RetryHelper` (src/RetryHelpers.ts lines 186-199): `startTimestamp` is
set to `new Date()` at construction; the constructor stores the ordered
`options` list. The wrapped function `f` and its `args` are passed to `run`
directly here rather than stored, without changing behaviour. -/
structure RetryHelper where
  startTimestamp : Int
  options : List RetryOption

/-- Observable outcome of one call to `RetryHelper.run`. `run` has no
`return` statement and discards `const result`, so a normal resolution
carries `Unit` (JavaScript `undefined`), never the operation's value.
`invocations` counts calls to the wrapped function `f`; `sleeps` counts
calls to the module's `sleep` helper (the body of `run` contains none). -/
structure RunResult where
  outcome : Except StopErr Unit
  invocations : Nat
  sleeps : Nat
  deriving Repr

/-- Method `RetryHelper.run` (src/RetryHelpers.ts lines 201-230). Control flow of
the source, in order: `numAttempts` starts at 0 and is incremented once;
`delayMs` starts at 0; a `TIMEOUT` listener is registered on the
module-level `EventEmitter` (asynchronous machinery, see file header);
`await this.f(...this.args)` is performed once inside `try`; on success the
result is assigned to an unused `const result` and the method returns
`undefined`; on failure one `runRound` over the registered options is
performed with `currentTimestamp = new Date()` (modelled as the parameter
`currentTimestamp`), after which the method returns `undefined` — there is
no loop, no `sleep`, and no second invocation. A `StopErr` thrown inside
the round propagates out of `run`. The operation is modelled as
`f : Nat → Except Nat α`, giving the result of each would-be invocation by
index; `run` consults only `f 0`. -/
def RetryHelper.run {α : Type} (h : RetryHelper) (f : Nat → Except Nat α)
    (currentTimestamp : Int) : RunResult :=
  match f 0 with
  | .ok _result => ⟨.ok (), 1, 0⟩
  | .error err =>
    match runRound h.options 1 currentTimestamp err 0 with
    | .error e => ⟨.error e, 1, 0⟩
    | .ok _delayMs => ⟨.ok (), 1, 0⟩

/-- Class `MaxAttemptsRetryAllowed` (src/RetryHelpers.ts lines 35-48):
`private attempts = 0`, configured `maxAttempts`. -/
structure MaxAttemptsRetryAllowed where
  maxAttempts : Nat
  attempts : Nat := 0
  deriving DecidableEq, Repr

/-- Method `MaxAttemptsRetryAllowed.checkRetryAllowed`: `this.attempts++`, then
`if (this.attempts >= this.maxAttempts) throw new MaxAttemptsException(...)`.
It counts its own invocations and ignores the `numAttempts` argument.
Returns the updated object on the non-throwing path. -/
def MaxAttemptsRetryAllowed.checkRetryAllowed (o : MaxAttemptsRetryAllowed)
    (_numAttempts : Nat) (_timestamp : Int) (_err : Nat) :
    Except StopErr MaxAttemptsRetryAllowed :=
  let o : MaxAttemptsRetryAllowed := { o with attempts := o.attempts + 1 }
  if o.attempts ≥ o.maxAttempts then
    .error (.maxAttemptsExceeded o.attempts)
  else
    .ok o

/-- A fresh `new MaxAttemptsRetryAllowed(n)` registered as a `RetryOption`
(its state at the single round `run` performs is the initial state). -/
def maxAttemptsOption (n : Nat) : RetryOption :=
  { checkRetryAllowed := some fun numAttempts timestamp err =>
      (MaxAttemptsRetryAllowed.checkRetryAllowed ⟨n, 0⟩ numAttempts timestamp err).map
        fun _ => ()
    retryDelayMs := none }

/-- Class `MaxTimeout` (src/RetryHelpers.ts lines 78-98): configured
`totalTimeoutMs`. -/
structure MaxTimeout where
  totalTimeoutMs : Int
  deriving DecidableEq, Repr

/-- Method `MaxTimeout.checkRetryAllowed`: throws `MaxTimeoutException` when
`timestamp.getTime() >= this.totalTimeoutMs`. Note the comparison is
against the absolute clock value (milliseconds since the epoch); the
method never reads the engine's `startTimestamp` and subtracts nothing.
On the non-throwing path the source additionally arms a `setTimeout` whose
callback emits on the module `EventEmitter` (asynchronous machinery, see
file header). -/
def MaxTimeout.checkRetryAllowed (o : MaxTimeout) (_numAttempts : Nat)
    (timestamp : Int) (_err : Nat) : Except StopErr Unit :=
  if timestamp ≥ o.totalTimeoutMs then
    .error (.maxTimeoutExceeded o.totalTimeoutMs)
  else
    .ok ()

/-- A `new MaxTimeout(t)` registered as a `RetryOption`. -/
def maxTimeoutOption (t : Int) : RetryOption :=
  { checkRetryAllowed := some fun numAttempts timestamp err =>
      MaxTimeout.checkRetryAllowed ⟨t⟩ numAttempts timestamp err
    retryDelayMs := none }

/-- Class `LinearBackoff` (src/RetryHelpers.ts lines 53-73): configured `delay`,
`private attempts = 0`, `private currentDelay = 0`. -/
structure LinearBackoff where
  delay : ℚ
  attempts : Nat := 0
  currentDelay : ℚ := 0
  deriving DecidableEq, Repr

/-- Method `LinearBackoff.retryDelayMs`: `this.currentDelay += this.delay`; a local
`delay = previousDelayMs + this.currentDelay` is computed and used only to
arm a `setTimeout` (asynchronous machinery, see file header); the method
returns `this.currentDelay` — dropping `previousDelayMs` from its return
value. Returns the updated object alongside the returned number. -/
def LinearBackoff.retryDelayMs (o : LinearBackoff) (_previousDelayMs : ℚ)
    (_timestamp : Int) : LinearBackoff × ℚ :=
  let o : LinearBackoff := { o with currentDelay := o.currentDelay + o.delay }
  (o, o.currentDelay)

/-- A fresh `new LinearBackoff(d)` registered as a `RetryOption`. -/
def linearBackoffOption (d : ℚ) : RetryOption :=
  { checkRetryAllowed := none
    retryDelayMs := some fun previousDelayMs timestamp =>
      (LinearBackoff.retryDelayMs ⟨d, 0, 0⟩ previousDelayMs timestamp).2 }

/-- Class `DelayJitter` (src/RetryHelpers.ts lines 124-131): configured
`minJitterMs` (default 100) and `maxJitterMs` (default 250). -/
structure DelayJitter where
  minJitterMs : ℚ := 100
  maxJitterMs : ℚ := 250
  deriving DecidableEq, Repr

/-- The `DelayJitter` constructor body: `assert(maxJitterMs > minJitterMs)`.
(The identifier `assert` is unbound in the source file; it is modelled as a
standard assertion, i.e. construction fails exactly when the asserted
condition is false, realising the spec's `InvalidConfiguration`.) -/
def DelayJitter.build (minJitterMs maxJitterMs : ℚ) :
    Except ConfigError DelayJitter :=
  if maxJitterMs > minJitterMs then
    .ok ⟨minJitterMs, maxJitterMs⟩
  else
    .error .invalidConfiguration

/-- Method `DelayJitter.retryDelayMs`:
`Math.random()*(this.maxJitterMs-this.minJitterMs) + previousDelayMs`.
The value of `Math.random()` is the explicit parameter `rand`
(`0 ≤ rand < 1`). Note the source multiplies the random draw by the width
`maxJitterMs - minJitterMs` and adds it directly to `previousDelayMs`;
`minJitterMs` itself is never added. -/
def DelayJitter.retryDelayMs (o : DelayJitter) (rand : ℚ)
    (previousDelayMs : ℚ) (_timestamp : Int) : ℚ :=
  rand * (o.maxJitterMs - o.minJitterMs) + previousDelayMs

/-- A `DelayJitter` registered as a `RetryOption`, with the round's
`Math.random()` draw fixed to `rand`. -/
def jitterOption (j : DelayJitter) (rand : ℚ) : RetryOption :=
  { checkRetryAllowed := none
    retryDelayMs := some fun previousDelayMs timestamp =>
      j.retryDelayMs rand previousDelayMs timestamp }

/-- Class `LinearBackoffPolicy` (src/RetryHelper.ts lines 8-22): fields
`numAttempts = 0`, `delay`, `increment`. -/
structure LinearBackoffPolicy where
  numAttempts : Nat := 0
  delay : ℚ
  increment : Option ℚ := none
  deriving DecidableEq, Repr

/-- The `LinearBackoffPolicy` constructor: `this.delay = delay;
if (!increment) this.increment = delay;`. The optional parameter is
`Option ℚ`; JavaScript `!increment` is true when the argument is absent or
`0`, and when the argument is present and non-zero `this.increment` is
never assigned (it stays `undefined`, modelled `none`). `increment` is not
read by `getDelay`. -/
def LinearBackoffPolicy.new (delay : ℚ) (increment : Option ℚ := none) :
    LinearBackoffPolicy :=
  { numAttempts := 0
    delay := delay
    increment :=
      match increment with
      | none => some delay
      | some i => if i = 0 then some delay else none }

/-- Method `LinearBackoffPolicy.getDelay`: `this.numAttempts++;
return this.numAttempts * this.delay;`. Returns the updated object
alongside the returned number. -/
def LinearBackoffPolicy.getDelay (p : LinearBackoffPolicy) :
    LinearBackoffPolicy × ℚ :=
  let p : LinearBackoffPolicy := { p with numAttempts := p.numAttempts + 1 }
  (p, (p.numAttempts : ℚ) * p.delay)

/-- The policy object after `k` calls to `getDelay`. -/
def LinearBackoffPolicy.afterCalls (p : LinearBackoffPolicy) : Nat → LinearBackoffPolicy
  | 0 => p
  | k + 1 => ((p.afterCalls k).getDelay).1

/-- The number returned by call number `k + 1` to `getDelay` (so
`callResult p 0` is the first call's return value). -/
def LinearBackoffPolicy.callResult (p : LinearBackoffPolicy) (k : Nat) : ℚ :=
  ((p.afterCalls k).getDelay).2

/-- Class `ExponentialBackoffPolicy` (src/RetryHelper.ts lines 24-37): fields
`numAttempts = 0`, `delayBase`, `exponential` (the class also declares a
`delay` field that no code ever assigns or reads; it is omitted). The
exponent is modelled as `Nat`, matching every use in the repository and
spec (`Math.pow(base, exponential)` with a non-negative integer). -/
structure ExponentialBackoffPolicy where
  numAttempts : Nat := 0
  delayBase : ℚ
  exponential : Nat
  deriving DecidableEq, Repr

/-- Method `ExponentialBackoffPolicy.getDelay`: `this.numAttempts++;
return Math.pow(this.delayBase, this.exponential);`. The counter is
incremented but the returned value does not depend on it. -/
def ExponentialBackoffPolicy.getDelay (p : ExponentialBackoffPolicy) :
    ExponentialBackoffPolicy × ℚ :=
  ({ p with numAttempts := p.numAttempts + 1 }, p.delayBase ^ p.exponential)

/-- The policy object after `k` calls to `getDelay`. -/
def ExponentialBackoffPolicy.afterCalls (p : ExponentialBackoffPolicy) :
    Nat → ExponentialBackoffPolicy
  | 0 => p
  | k + 1 => ((p.afterCalls k).getDelay).1

/-- The number returned by call number `k + 1` to `getDelay`. -/
def ExponentialBackoffPolicy.callResult (p : ExponentialBackoffPolicy) (k : Nat) : ℚ :=
  ((p.afterCalls k).getDelay).2

/-- The `ExponentialBackoffPolicy` constructor:
`this.delayBase = delayBase; this.exponential = exponential;` with the
counter at its initializer value `0`. -/
def ExponentialBackoffPolicy.new (delayBase : ℚ) (exponential : Nat) :
    ExponentialBackoffPolicy :=
  { numAttempts := 0, delayBase := delayBase, exponential := exponential }

/-- An operation that fails on every invocation (with opaque error token 7). -/
def alwaysFail : Nat → Except Nat ℚ := fun _ => .error 7

/-- The end-to-end scenario operation: fails on its first two invocations
(with opaque error token 7) and succeeds with the value `3` from the third
invocation on. -/
def failTwiceThenSucceed : Nat → Except Nat ℚ := fun i =>
  if i < 2 then .error 7 else .ok 3

/-- Helper: when every option before position `|pre|` passes its check and
the option at that position throws `e`, the round evaluates to `.error e`
for every initial delay, regardless of the options after that position. -/
theorem runRound_shortCircuit (pre post : List RetryOption) (o : RetryOption)
    (na : Nat) (ts : Int) (err : Nat) (e : StopErr)
    (hpre : ∀ p ∈ pre, p.applyCheck na ts err = .ok ())
    (ho : o.applyCheck na ts err = .error e) (d0 : ℚ) :
    runRound (pre ++ o :: post) na ts err d0 = .error e := by
  induction pre generalizing d0 with
  | nil => simp [runRound, ho]
  | cons p ps ih =>
    have hp := hpre p (by simp)
    simp only [List.cons_append, runRound, hp]
    exact ih (fun q hq => hpre q (by simp [hq])) _

/-- Helper: `afterCalls` adds `k` to the linear policy's counter and leaves
its `delay` parameter unchanged. -/
theorem LinearBackoffPolicy.afterCalls_fields (p : LinearBackoffPolicy) (k : Nat) :
    (p.afterCalls k).numAttempts = p.numAttempts + k ∧
      (p.afterCalls k).delay = p.delay := by
  induction k with
  | zero => simp [afterCalls]
  | succ k ih =>
    simp only [afterCalls, getDelay, ih.1, ih.2]
    exact ⟨Nat.add_assoc .., trivial⟩

/-- Helper: `afterCalls` leaves the exponential policy's `delayBase` and
`exponential` parameters unchanged. -/
theorem ExponentialBackoffPolicy.afterCalls_params (p : ExponentialBackoffPolicy)
    (k : Nat) :
    (p.afterCalls k).delayBase = p.delayBase ∧
      (p.afterCalls k).exponential = p.exponential := by
  induction k with
  | zero => simp [afterCalls]
  | succ k ih => simp [afterCalls, getDelay, ih.1, ih.2]

/-- Helper: the value returned by call number `k + 1` of the linear
policy's `getDelay`, in terms of the starting state. -/
theorem LinearBackoffPolicy.callResult_eq (p : LinearBackoffPolicy) (k : Nat) :
    p.callResult k = ((p.numAttempts : ℚ) + (k : ℚ) + 1) * p.delay := by
  have hf := p.afterCalls_fields k
  simp [callResult, getDelay, hf.1, hf.2]

/-- Helper: the value returned by call number `k + 1` of the exponential
policy's `getDelay`, in terms of the starting state. -/
theorem ExponentialBackoffPolicy.callValue_eq (p : ExponentialBackoffPolicy)
    (k : Nat) : p.callResult k = p.delayBase ^ p.exponential := by
  have hf := p.afterCalls_params k
  simp [callResult, getDelay, hf.1, hf.2]

/-- Claim C1: the spec says that with `maxAttempts = n` and an operation
failing on every invocation, the engine invokes the operation exactly `n`
times and then raises `MaxAttemptsExceeded`. On the code this fails:
`RetryHelper.run` has no loop, so with `maxAttempts = 2` and the
always-failing operation it invokes the operation exactly once, performs
one round in which `MaxAttemptsRetryAllowed` counts `1 < 2` and does not
throw, and then resolves normally — `MaxAttemptsExceeded` is never raised
and no second invocation happens. -/
theorem run_maxAttempts_two_single_invocation :
    (⟨0, [maxAttemptsOption 2]⟩ : RetryHelper).run alwaysFail 0
      = ⟨.ok (), 1, 0⟩ := rfl

/-- Claim C2: the spec says `MaxTotalTime`'s check fails exactly when the
elapsed time `timestamp - startTimestamp` is at least `totalMs`. On the
code this fails: `MaxTimeout.checkRetryAllowed` compares the absolute
clock value `timestamp.getTime()` against `totalTimeoutMs` and never reads
`startTimestamp`. With `startTimestamp = 1000`, a check at
`timestamp = 1000` and `totalTimeoutMs = 500`, the elapsed time is
`0 < 500`, yet the check throws `MaxTimeoutException`. -/
theorem maxTimeout_checks_absolute_clock :
    MaxTimeout.checkRetryAllowed ⟨500⟩ 1 1000 7
        = .error (.maxTimeoutExceeded 500) ∧
      (1000 : Int) - (⟨1000, []⟩ : RetryHelper).startTimestamp < 500 :=
  ⟨rfl, by norm_num⟩

/-- Claim C3: the spec says `run()` resolves to the operation's value, and
in the end-to-end scenario (fails twice then succeeds with `3`,
`maxAttempts = 5`, linear delay 10) resolves to `3` after exactly 3
invocations. On the code this fails: `run` awaits the operation once,
assigns the result to an unused local, and returns `undefined`; with the
fail-twice operation the single invocation fails, the round does not veto
(`1 < 5`), and `run` resolves to `undefined` after exactly 1 invocation —
the success value `3` is never observed (the outcome type of the embedded
`run` carries `Unit`, mirroring that no value is ever returned). -/
theorem run_discards_result_no_loop :
    (⟨0, [maxAttemptsOption 5, linearBackoffOption 10]⟩ : RetryHelper).run
        failTwiceThenSucceed 0 = ⟨.ok (), 1, 0⟩ := rfl

/-- Claim C4: for every registered option list split as
`pre ++ o :: post`, if the operation fails, every option of `pre` passes
its check and `o`'s check throws `e`, then the whole `run` rejects with
exactly `e` — for every `post` and every `retryDelayMs` field of `o`
(neither is constrained by any hypothesis), i.e. the first vetoing option
determines the stop cause and no later check or delay contribution of that
round can influence the result. -/
theorem run_first_veto_short_circuits {α : Type} (h : RetryHelper)
    (f : Nat → Except Nat α) (ts : Int) (err : Nat) (e : StopErr)
    (pre post : List RetryOption) (o : RetryOption)
    (hopts : h.options = pre ++ o :: post)
    (hf : f 0 = .error err)
    (hpre : ∀ p ∈ pre, p.applyCheck 1 ts err = .ok ())
    (ho : o.applyCheck 1 ts err = .error e) :
    (h.run f ts).outcome = .error e := by
  have hr := runRound_shortCircuit pre post o 1 ts err e hpre ho 0
  simp [RetryHelper.run, hf, hopts, hr]

/-- Witness for C4: options `[MaxTimeout 500, MaxAttemptsRetryAllowed 1,
LinearBackoff 10]` at timestamp 0 — the timeout check passes, the
max-attempts option throws, and `run` rejects with its
`MaxAttemptsExceeded` regardless of the trailing backoff option. -/
theorem run_first_veto_short_circuits_witness :
    ((⟨0, [maxTimeoutOption 500, maxAttemptsOption 1, linearBackoffOption 10]⟩ :
        RetryHelper).run alwaysFail 0).outcome
      = .error (.maxAttemptsExceeded 1) :=
  run_first_veto_short_circuits (α := ℚ) _ alwaysFail 0 7
    (.maxAttemptsExceeded 1) [maxTimeoutOption 500] [linearBackoffOption 10]
    (maxAttemptsOption 1) rfl rfl
    (by intro p hp; simp only [List.mem_singleton] at hp; subst hp; rfl) rfl

/-- Claim C5: when no registered option vetoes (every check passes), the
round returns exactly the left fold of the options' `retryDelayMs`
contributions over the initial delay, in registration order — each option
receives as `previousDelayMs` the running total produced by the options
before it, and the fold's final value is the round's resulting delay. -/
theorem runRound_folds_delay (opts : List RetryOption) (na : Nat) (ts : Int)
    (err : Nat) (d0 : ℚ)
    (h : ∀ p ∈ opts, p.applyCheck na ts err = .ok ()) :
    runRound opts na ts err d0
      = .ok (opts.foldl (fun d o => o.applyDelay d ts) d0) := by
  induction opts generalizing d0 with
  | nil => simp [runRound]
  | cons o rest ih =>
    have ho := h o (by simp)
    simp only [runRound, ho, List.foldl_cons]
    exact ih _ (fun p hp => h p (List.mem_cons_of_mem o hp))

/-- Witness for C5: options `[LinearBackoff 10, DelayJitter 100 250]` with random
draw 1/2 — the backoff option turns the initial 0 into 10, the jitter
option receives that 10 and produces `(1/2)·150 + 10 = 85`, and the round
returns 85. -/
theorem runRound_folds_delay_witness :
    runRound [linearBackoffOption 10, jitterOption ⟨100, 250⟩ (1/2)] 1 0 7 0
      = .ok 85 := by
  have hpass : ∀ p ∈ [linearBackoffOption 10, jitterOption ⟨100, 250⟩ (1/2)],
      p.applyCheck 1 0 7 = .ok () := by
    intro p hp
    rcases List.mem_cons.mp hp with h1 | hp2
    · subst h1; rfl
    · rcases List.mem_cons.mp hp2 with h2 | h3
      · subst h2; rfl
      · exact absurd h3 (List.not_mem_nil p)
  rw [runRound_folds_delay _ 1 0 7 0 hpass]
  norm_num [linearBackoffOption, jitterOption, RetryOption.applyDelay,
    LinearBackoff.retryDelayMs, DelayJitter.retryDelayMs]

/-- Claim C6: the spec says the jitter option adds a uniformly distributed
offset in `[minJitterMs, maxJitterMs)`, so with `minJitterMs = 100`,
`maxJitterMs = 250` every produced delay lies in
`[previousDelay + 100, previousDelay + 250)`. On the code this fails:
`DelayJitter.retryDelayMs` computes
`Math.random()·(maxJitterMs − minJitterMs) + previousDelayMs`, never
adding `minJitterMs`, so the offset ranges over `[0, 150)`. At the valid
random draw `Math.random() = 0` and `previousDelayMs = 0` the produced
delay is `0`, strictly below the claimed lower bound `0 + 100`. -/
theorem jitter_can_fall_below_min :
    (0 : ℚ) ≤ 0 ∧ (0 : ℚ) < 1 ∧
    DelayJitter.retryDelayMs ⟨100, 250⟩ 0 0 0 = 0 ∧
    DelayJitter.retryDelayMs ⟨100, 250⟩ 0 0 0 < 0 + 100 := by
  norm_num [DelayJitter.retryDelayMs]

/-- Claim C7: constructing `DelayJitter` with `maxJitterMs ≤ minJitterMs`
fails at construction time (the constructor's assertion, realising the
spec's `InvalidConfiguration`), and with `maxJitterMs > minJitterMs`
construction succeeds with the configured bounds. -/
theorem delayJitter_build_validates (minJ maxJ : ℚ) :
    (maxJ ≤ minJ → DelayJitter.build minJ maxJ = .error .invalidConfiguration) ∧
    (minJ < maxJ → DelayJitter.build minJ maxJ = .ok ⟨minJ, maxJ⟩) := by
  constructor
  · intro hle
    simp [DelayJitter.build, not_lt.mpr hle]
  · intro hlt
    simp [DelayJitter.build, hlt]

/-- Witness for C7: construction with `min = 250, max = 100` fails with
`InvalidConfiguration`; construction with `min = 100, max = 250`
succeeds. -/
theorem delayJitter_build_validates_witness :
    DelayJitter.build 250 100 = .error .invalidConfiguration ∧
    DelayJitter.build 100 250 = .ok ⟨100, 250⟩ :=
  ⟨(delayJitter_build_validates 250 100).1 (by norm_num),
   (delayJitter_build_validates 100 250).2 (by norm_num)⟩

/-- Claim C8: on a freshly constructed `LinearBackoffPolicy(d)`, call
number `k + 1` to `getDelay` (the n-th call, `n = k + 1 ≥ 1`) returns
`(k + 1) · d = n · baseDelay` — so with `d = 100` the successive calls
return `100, 200, 300, …` — and for `0 < d` the sequence of returned
values is strictly monotonically increasing. -/
theorem linearBackoffPolicy_nth_call (d : ℚ) (k : Nat) :
    (LinearBackoffPolicy.new d).callResult k = ((k : ℚ) + 1) * d ∧
    (0 < d → ∀ m : Nat, k < m →
      (LinearBackoffPolicy.new d).callResult k
        < (LinearBackoffPolicy.new d).callResult m) := by
  have hval : ∀ j : Nat, (LinearBackoffPolicy.new d).callResult j = ((j : ℚ) + 1) * d := by
    intro j
    rw [LinearBackoffPolicy.callResult_eq]
    simp [LinearBackoffPolicy.new]
  refine ⟨hval k, fun hd m hkm => ?_⟩
  rw [hval k, hval m]
  have : ((k : ℚ) + 1) < ((m : ℚ) + 1) := by
    have : (k : ℚ) < (m : ℚ) := by exact_mod_cast hkm
    linarith
  exact mul_lt_mul_of_pos_right this hd

/-- Witness for C8: with `delay = 100` the first three calls return
`100, 200, 300`, and the first call's value is below the second's. -/
theorem linearBackoffPolicy_nth_call_witness :
    (LinearBackoffPolicy.new 100).callResult 0 = 100 ∧
    (LinearBackoffPolicy.new 100).callResult 1 = 200 ∧
    (LinearBackoffPolicy.new 100).callResult 2 = 300 ∧
    (LinearBackoffPolicy.new 100).callResult 0
      < (LinearBackoffPolicy.new 100).callResult 1 :=
  ⟨by rw [(linearBackoffPolicy_nth_call 100 0).1]; norm_num,
   by rw [(linearBackoffPolicy_nth_call 100 1).1]; norm_num,
   by rw [(linearBackoffPolicy_nth_call 100 2).1]; norm_num,
   (linearBackoffPolicy_nth_call 100 0).2 (by norm_num) 1 (by norm_num)⟩

/-- Claim C9: every call to `ExponentialBackoffPolicy.getDelay` returns
`delayBase ^ exponential`, independent of how many calls preceded it (the
internal counter advances but is never read by the formula); in particular
with `base = 2, exponent = 5` every call returns `32`. -/
theorem exponentialBackoffPolicy_constant (b : ℚ) (e k : Nat) :
    (ExponentialBackoffPolicy.new b e).callResult k = b ^ e ∧
    (ExponentialBackoffPolicy.new 2 5).callResult k = 32 := by
  have hval : ∀ b' : ℚ, ∀ e' : Nat,
      (ExponentialBackoffPolicy.new b' e').callResult k = b' ^ e' := by
    intro b' e'
    rw [ExponentialBackoffPolicy.callValue_eq]
    simp [ExponentialBackoffPolicy.new]
  refine ⟨hval b e, ?_⟩
  rw [hval 2 5]
  norm_num

/-- Claim C10: one call to `RetryHelper.run` invokes the wrapped operation
exactly once (hence at most once) and performs zero `sleep` calls, for
every operation, timestamp and option list; and whenever the single
attempt fails and the round over the registered options does not throw,
`run` resolves normally (to `undefined`) without any further attempt. -/
theorem run_single_attempt_no_sleep {α : Type} (h : RetryHelper)
    (f : Nat → Except Nat α) (ts : Int) :
    (h.run f ts).invocations = 1 ∧ (h.run f ts).sleeps = 0 ∧
      ∀ err d, f 0 = .error err → runRound h.options 1 ts err 0 = .ok d →
        (h.run f ts).outcome = .ok () := by
  refine ⟨?_, ?_, ?_⟩
  · cases hf : f 0 with
    | ok v => simp [RetryHelper.run, hf]
    | error e =>
      cases hr : runRound h.options 1 ts e 0 <;> simp [RetryHelper.run, hf, hr]
  · cases hf : f 0 with
    | ok v => simp [RetryHelper.run, hf]
    | error e =>
      cases hr : runRound h.options 1 ts e 0 <;> simp [RetryHelper.run, hf, hr]
  · intro err d hf hr
    simp [RetryHelper.run, hf, hr]

/-- Witness for C10: an always-failing operation under a single linear
backoff option — one invocation, zero sleeps, normal resolution. -/
theorem run_single_attempt_no_sleep_witness :
    ((⟨0, [linearBackoffOption 10]⟩ : RetryHelper).run alwaysFail 0).invocations = 1 ∧
    ((⟨0, [linearBackoffOption 10]⟩ : RetryHelper).run alwaysFail 0).sleeps = 0 ∧
    ((⟨0, [linearBackoffOption 10]⟩ : RetryHelper).run alwaysFail 0).outcome = .ok () :=
  have t := run_single_attempt_no_sleep (α := ℚ)
    (⟨0, [linearBackoffOption 10]⟩ : RetryHelper) alwaysFail 0
  ⟨t.1, t.2.1, t.2.2 7 10 rfl (by
    norm_num [runRound, RetryOption.applyCheck, RetryOption.applyDelay,
      linearBackoffOption, LinearBackoff.retryDelayMs])⟩
